import Mathlib

/-
Verification of the v1alpha1 Runner API types of actions-runner-controller
(src/api/v1alpha1/runner_types.go): the scope validation of RunnerSpec
(ValidateRepository) and the registerability predicate of Runner
(IsRegisterable), embedded shallowly as pure Lean functions.
-/

namespace ARC

/-- Model of the external k8s corev1.Container type; this core never inspects
its contents, so it is carried as an uninterpreted payload. -/
structure Container where
  payload : String
  deriving DecidableEq

/-- Model of the external corev1.ResourceRequirements type, uninterpreted. -/
structure ResourceRequirements where
  payload : String
  deriving DecidableEq

/-- Model of the external corev1.VolumeMount type, uninterpreted. -/
structure VolumeMount where
  payload : String
  deriving DecidableEq

/-- Model of the external corev1.EnvFromSource type, uninterpreted. -/
structure EnvFromSource where
  payload : String
  deriving DecidableEq

/-- Model of the external corev1.PullPolicy type, uninterpreted. -/
structure PullPolicy where
  payload : String
  deriving DecidableEq

/-- Model of the external corev1.EnvVar type, uninterpreted. -/
structure EnvVar where
  payload : String
  deriving DecidableEq

/-- Model of the external corev1.Volume type, uninterpreted. -/
structure Volume where
  payload : String
  deriving DecidableEq

/-- Model of the external corev1.PodSecurityContext type, uninterpreted. -/
structure PodSecurityContext where
  payload : String
  deriving DecidableEq

/-- Model of the external corev1.LocalObjectReference type, uninterpreted. -/
structure LocalObjectReference where
  payload : String
  deriving DecidableEq

/-- Model of the external corev1.Affinity type, uninterpreted. -/
structure Affinity where
  payload : String
  deriving DecidableEq

/-- Model of the external corev1.Toleration type, uninterpreted. -/
structure Toleration where
  payload : String
  deriving DecidableEq

/-- Model of the external corev1.EphemeralContainer type, uninterpreted. -/
structure EphemeralContainer where
  payload : String
  deriving DecidableEq

/-- Model of metav1.Time: an absolute wall-clock instant, as an integer. -/
structure Time where
  t : Int
  deriving DecidableEq

/-- Model of metav1 Time.Before on non-nil receivers: strict less-than on
the underlying instant (time.Time.Before). -/
def Time.Before (a b : Time) : Bool :=
  decide (a.t < b.t)

/-- RunnerSpec defines the desired state of Runner. Field for field from
the Go struct; Go pointer-typed optional fields become Option, slices
become List, the nodeSelector map becomes an association list. -/
structure RunnerSpec where
  enterprise : String
  organization : String
  repository : String
  labels : List String
  group : String
  ephemeral : Option Bool
  containers : List Container
  dockerdContainerResources : ResourceRequirements
  dockerVolumeMounts : List VolumeMount
  resources : ResourceRequirements
  volumeMounts : List VolumeMount
  envFrom : List EnvFromSource
  image : String
  imagePullPolicy : PullPolicy
  env : List EnvVar
  volumes : List Volume
  workDir : String
  initContainers : List Container
  sidecarContainers : List Container
  nodeSelector : List (String × String)
  serviceAccountName : String
  automountServiceAccountToken : Option Bool
  securityContext : Option PodSecurityContext
  imagePullSecrets : List LocalObjectReference
  affinity : Option Affinity
  tolerations : List Toleration
  ephemeralContainers : List EphemeralContainer
  terminationGracePeriodSeconds : Option Int
  dockerdWithinRunnerContainer : Option Bool
  dockerEnabled : Option Bool
  dockerMTU : Option Int
  deriving DecidableEq

/-- The two error values ValidateRepository can return, distinguished by
their message: missingScope is errors.New with the message that the spec
needs enterprise, organization or repository; ambiguousScope is errors.New
with the message that the spec cannot have many of those fields defined. -/
inductive ValidationError where
  | missingScope
  | ambiguousScope
  deriving DecidableEq

/-- The foundCount computed inside ValidateRepository: how many of
organization, repository, enterprise have length greater than zero,
incremented in the order of the Go source. -/
def RunnerSpec.foundCount (rs : RunnerSpec) : Nat :=
  (if 0 < rs.organization.length then 1 else 0)
  + (if 0 < rs.repository.length then 1 else 0)
  + (if 0 < rs.enterprise.length then 1 else 0)

/-- ValidateRepository validates the scope fields: error when none of the
three scope fields is set, error when more than one is set, success (none)
otherwise. Mirrors the Go method returning error, with nil as none. -/
def RunnerSpec.ValidateRepository (rs : RunnerSpec) : Option ValidationError :=
  if rs.foundCount = 0 then
    some ValidationError.missingScope
  else if 1 < rs.foundCount then
    some ValidationError.ambiguousScope
  else
    none

/-- RunnerStatusRegistration contains runner registration status. -/
structure RunnerStatusRegistration where
  enterprise : String
  organization : String
  repository : String
  labels : List String
  token : String
  expiresAt : Time
  deriving DecidableEq

/-- RunnerStatus defines the observed state of Runner. -/
structure RunnerStatus where
  registration : RunnerStatusRegistration
  phase : String
  reason : String
  message : String
  lastRegistrationCheckTime : Option Time
  deriving DecidableEq

/-- Runner aggregate: desired spec plus observed status. The k8s TypeMeta
and ObjectMeta identity headers are not read by any logic here. -/
structure Runner where
  spec : RunnerSpec
  status : RunnerStatus
  deriving DecidableEq

/-- IsRegisterable from the Go source, with the instant now (sampled by
metav1.Now in Go) passed explicitly: false when the registration repository
echo differs from the desired repository, false when the token is empty,
false when expiresAt is before now, true otherwise. -/
def Runner.IsRegisterable (r : Runner) (now : Time) : Bool :=
  if r.status.registration.repository != r.spec.repository then
    false
  else if r.status.registration.token == "" then
    false
  else if Time.Before r.status.registration.expiresAt now then
    false
  else
    true

/-- A RunnerSpec with every field empty or unset, used as a base for the
concrete scenarios below. -/
def baseSpec : RunnerSpec where
  enterprise := ""
  organization := ""
  repository := ""
  labels := []
  group := ""
  ephemeral := none
  containers := []
  dockerdContainerResources := ⟨""⟩
  dockerVolumeMounts := []
  resources := ⟨""⟩
  volumeMounts := []
  envFrom := []
  image := ""
  imagePullPolicy := ⟨""⟩
  env := []
  volumes := []
  workDir := ""
  initContainers := []
  sidecarContainers := []
  nodeSelector := []
  serviceAccountName := ""
  automountServiceAccountToken := none
  securityContext := none
  imagePullSecrets := []
  affinity := none
  tolerations := []
  ephemeralContainers := []
  terminationGracePeriodSeconds := none
  dockerdWithinRunnerContainer := none
  dockerEnabled := none
  dockerMTU := none

/-- An empty registration state. -/
def baseReg : RunnerStatusRegistration where
  enterprise := ""
  organization := ""
  repository := ""
  labels := []
  token := ""
  expiresAt := ⟨0⟩

/-- A runner whose desired repository is org/repo and whose registration
echoes org/repo with token abc and the given expiry instant. -/
def repoRunner (expiry : Int) : Runner where
  spec := { baseSpec with repository := "org/repo" }
  status :=
    { registration :=
        { baseReg with repository := "org/repo", token := "abc", expiresAt := ⟨expiry⟩ }
      phase := ""
      reason := ""
      message := ""
      lastRegistrationCheckTime := none }

/-- A runner whose desired scope is organization acme, whose registration
echoes an empty repository with token abc and the given expiry instant
(scenario C of the spec). -/
def orgRunner (expiry : Int) : Runner where
  spec := { baseSpec with organization := "acme" }
  status :=
    { registration :=
        { baseReg with repository := "", token := "abc", expiresAt := ⟨expiry⟩ }
      phase := ""
      reason := ""
      message := ""
      lastRegistrationCheckTime := none }

/-- A runner whose registration repository echo (other/repo) differs from
the desired repository (org/repo), with a fresh token. -/
def mismatchRunner : Runner where
  spec := { baseSpec with repository := "org/repo" }
  status :=
    { registration :=
        { baseReg with repository := "other/repo", token := "abc", expiresAt := ⟨3600⟩ }
      phase := ""
      reason := ""
      message := ""
      lastRegistrationCheckTime := none }

/-- A runner whose registration token is empty while every other check
would pass. -/
def emptyTokenRunner : Runner where
  spec := { baseSpec with repository := "org/repo" }
  status :=
    { registration :=
        { baseReg with repository := "org/repo", token := "", expiresAt := ⟨3600⟩ }
      phase := ""
      reason := ""
      message := ""
      lastRegistrationCheckTime := none }

/-- An organization-scoped spec with no other field set. -/
def specPlain : RunnerSpec :=
  { baseSpec with organization := "acme" }

/-- The same organization scope as specPlain but with labels, group,
ephemeral flag, image and workDir also populated. -/
def specDecorated : RunnerSpec :=
  { baseSpec with
      organization := "acme"
      labels := ["self-hosted"]
      group := "pool"
      ephemeral := some true
      image := "runner:v2"
      workDir := "/work" }

/-- Scenario D of the spec: enterprise and organization both set to acme. -/
def ambiguousSpec : RunnerSpec :=
  { baseSpec with enterprise := "acme", organization := "acme" }

/-- Bridge between the Go length test and string emptiness: a string has
positive length exactly when it is not the empty string. -/
theorem length_pos_iff_ne_empty (s : String) : 0 < s.length ↔ s ≠ "" := by
  constructor
  · intro h heq
    rw [heq] at h
    simp at h
  · intro h
    rcases Nat.eq_zero_or_pos s.length with h0 | hp
    · exact absurd (String.ext (List.length_eq_zero.mp h0)) h
    · exact hp

/-- C1 (counterexample): the claim says a registration whose expiresAt is
at or before now is never registerable, but on the code a registration
whose expiry equals the current instant exactly passes: Time.Before is
strict, so expiresAt = now is registerable. -/
theorem isRegisterable_at_exact_expiry_counterexample :
    (repoRunner 100).status.registration.expiresAt.t ≤ (100 : Int)
      ∧ (repoRunner 100).IsRegisterable ⟨100⟩ = true := by
  constructor
  · decide
  · decide

/-- C1 (amended): for every runner and instant now, if the registration
expiresAt is strictly before now then IsRegisterable returns false; the
registration counts as valid when expiresAt is at or after now. -/
theorem isRegisterable_false_of_expired (r : Runner) (now : Time)
    (h : r.status.registration.expiresAt.t < now.t) :
    r.IsRegisterable now = false := by
  unfold Runner.IsRegisterable
  split
  · rfl
  · split
    · rfl
    · simp [Time.Before, h]

/-- C1 (witness): the amended theorem applied to a runner expiring at 100
evaluated at instant 200. -/
theorem isRegisterable_false_of_expired_witness :
    (repoRunner 100).status.registration.expiresAt.t < (200 : Int)
      ∧ (repoRunner 100).IsRegisterable ⟨200⟩ = false :=
  ⟨by decide, isRegisterable_false_of_expired (repoRunner 100) ⟨200⟩ (by decide)⟩

/-- C2 (counterexample): the claim says the organization-scoped scenario C
runner is not registerable, but on the code it is: the repository echo is
the empty string and so is the desired repository, the token abc is
non-empty and the expiry 3600 is after the instant 0. -/
theorem orgScoped_scenarioC_counterexample :
    (orgRunner 3600).IsRegisterable ⟨0⟩ = true := by
  decide

/-- C2 (amended): for every instant now, the runner of scenario C —
organization acme, registration repository empty, token abc, expiresAt one
hour after now — is registerable: the repository comparison is the
vacuous empty-equals-empty. -/
theorem orgScoped_scenarioC_registerable (n : Int) :
    (orgRunner (n + 3600)).IsRegisterable ⟨n⟩ = true := by
  simp [Runner.IsRegisterable, orgRunner, baseSpec, baseReg, Time.Before]

/-- C3: for every runner aggregate whose registration token is the empty
string, IsRegisterable returns false, whatever the other fields and the
current instant are. -/
theorem isRegisterable_false_of_empty_token (r : Runner) (now : Time)
    (h : r.status.registration.token = "") :
    r.IsRegisterable now = false := by
  unfold Runner.IsRegisterable
  split
  · rfl
  · simp [h]

/-- C3 (witness): the theorem applied to a runner with an empty token and
an otherwise valid registration. -/
theorem isRegisterable_false_of_empty_token_witness :
    emptyTokenRunner.status.registration.token = ""
      ∧ emptyTokenRunner.IsRegisterable ⟨0⟩ = false :=
  ⟨rfl, isRegisterable_false_of_empty_token emptyTokenRunner ⟨0⟩ rfl⟩

/-- C4: for every runner aggregate whose registration repository echo is
not equal to the desired repository, IsRegisterable returns false, for
every current instant — in particular also when the token is non-empty and
the expiry lies in the future. -/
theorem isRegisterable_false_of_repo_mismatch (r : Runner) (now : Time)
    (h : r.status.registration.repository ≠ r.spec.repository) :
    r.IsRegisterable now = false := by
  simp [Runner.IsRegisterable, h]

/-- C4 (witness): the theorem applied to a runner whose echo other/repo
differs from the desired org/repo while its token abc is non-empty and its
expiry 3600 is strictly after the instant 0. -/
theorem isRegisterable_false_of_repo_mismatch_witness :
    mismatchRunner.status.registration.repository ≠ mismatchRunner.spec.repository
      ∧ mismatchRunner.status.registration.token ≠ ""
      ∧ (0 : Int) < mismatchRunner.status.registration.expiresAt.t
      ∧ mismatchRunner.IsRegisterable ⟨0⟩ = false :=
  ⟨by decide, by decide, by decide,
    isRegisterable_false_of_repo_mismatch mismatchRunner ⟨0⟩ (by decide)⟩

/-- C5: for every runner aggregate whose registration repository echo
equals the desired repository, whose token is non-empty and whose expiry
is strictly after the current instant, IsRegisterable returns true. -/
theorem isRegisterable_true_of_valid_registration (r : Runner) (now : Time)
    (h1 : r.status.registration.repository = r.spec.repository)
    (h2 : r.status.registration.token ≠ "")
    (h3 : now.t < r.status.registration.expiresAt.t) :
    r.IsRegisterable now = true := by
  simp only [Runner.IsRegisterable, Time.Before, h1, bne_self_eq_false,
    Bool.false_eq_true, if_false]
  rw [if_neg, if_neg]
  · simp only [decide_eq_true_eq, not_lt]
    omega
  · simp [h2]

/-- C5 (witness): the theorem applied to scenario A — desired repository
org/repo, echo org/repo, token abc, expiry 3600, instant 0. -/
theorem isRegisterable_true_of_valid_registration_witness :
    (repoRunner 3600).status.registration.repository = (repoRunner 3600).spec.repository
      ∧ (repoRunner 3600).status.registration.token ≠ ""
      ∧ (0 : Int) < (repoRunner 3600).status.registration.expiresAt.t
      ∧ (repoRunner 3600).IsRegisterable ⟨0⟩ = true :=
  ⟨by decide, by decide, by decide,
    isRegisterable_true_of_valid_registration (repoRunner 3600) ⟨0⟩
      (by decide) (by decide) (by decide)⟩

/-- C6: for every spec in which enterprise, organization and repository
are all empty, ValidateRepository fails with the missing-scope error,
whatever the other fields are. -/
theorem validateRepository_missingScope (rs : RunnerSpec)
    (he : rs.enterprise = "") (ho : rs.organization = "") (hr : rs.repository = "") :
    rs.ValidateRepository = some ValidationError.missingScope := by
  have hcount : rs.foundCount = 0 := by
    have qe : ¬ 0 < rs.enterprise.length :=
      fun hp => (length_pos_iff_ne_empty rs.enterprise).mp hp he
    have qo : ¬ 0 < rs.organization.length :=
      fun hp => (length_pos_iff_ne_empty rs.organization).mp hp ho
    have qr : ¬ 0 < rs.repository.length :=
      fun hp => (length_pos_iff_ne_empty rs.repository).mp hp hr
    unfold RunnerSpec.foundCount
    rw [if_neg qo, if_neg qr, if_neg qe]
  unfold RunnerSpec.ValidateRepository
  rw [if_pos hcount]

/-- C6 (witness): the theorem applied to the all-empty spec. -/
theorem validateRepository_missingScope_witness :
    baseSpec.enterprise = "" ∧ baseSpec.organization = "" ∧ baseSpec.repository = ""
      ∧ baseSpec.ValidateRepository = some ValidationError.missingScope :=
  ⟨rfl, rfl, rfl, validateRepository_missingScope baseSpec rfl rfl rfl⟩

/-- C7: for every spec in which at least two of enterprise, organization
and repository are non-empty, ValidateRepository fails with the
ambiguous-scope error. -/
theorem validateRepository_ambiguousScope (rs : RunnerSpec)
    (h : (rs.enterprise ≠ "" ∧ rs.organization ≠ "")
        ∨ (rs.enterprise ≠ "" ∧ rs.repository ≠ "")
        ∨ (rs.organization ≠ "" ∧ rs.repository ≠ "")) :
    rs.ValidateRepository = some ValidationError.ambiguousScope := by
  have hcount : 1 < rs.foundCount := by
    unfold RunnerSpec.foundCount
    rcases h with ⟨h1, h2⟩ | ⟨h1, h2⟩ | ⟨h1, h2⟩
    · have p1 := (length_pos_iff_ne_empty rs.enterprise).mpr h1
      have p2 := (length_pos_iff_ne_empty rs.organization).mpr h2
      split_ifs <;> omega
    · have p1 := (length_pos_iff_ne_empty rs.enterprise).mpr h1
      have p2 := (length_pos_iff_ne_empty rs.repository).mpr h2
      split_ifs <;> omega
    · have p1 := (length_pos_iff_ne_empty rs.organization).mpr h1
      have p2 := (length_pos_iff_ne_empty rs.repository).mpr h2
      split_ifs <;> omega
  unfold RunnerSpec.ValidateRepository
  rw [if_neg (by omega), if_pos hcount]

/-- C7 (witness): the theorem applied to scenario D, enterprise acme and
organization acme both set. -/
theorem validateRepository_ambiguousScope_witness :
    ambiguousSpec.enterprise ≠ "" ∧ ambiguousSpec.organization ≠ ""
      ∧ ambiguousSpec.ValidateRepository = some ValidationError.ambiguousScope :=
  ⟨by decide, by decide,
    validateRepository_ambiguousScope ambiguousSpec (Or.inl ⟨by decide, by decide⟩)⟩

/-- C8: for every spec in which exactly one of enterprise, organization
and repository is non-empty, ValidateRepository succeeds (returns none),
whatever the other fields are. -/
theorem validateRepository_ok_of_exactly_one_scope (rs : RunnerSpec)
    (h : (rs.enterprise ≠ "" ∧ rs.organization = "" ∧ rs.repository = "")
        ∨ (rs.enterprise = "" ∧ rs.organization ≠ "" ∧ rs.repository = "")
        ∨ (rs.enterprise = "" ∧ rs.organization = "" ∧ rs.repository ≠ "")) :
    rs.ValidateRepository = none := by
  have hcount : rs.foundCount = 1 := by
    unfold RunnerSpec.foundCount
    rcases h with ⟨h1, h2, h3⟩ | ⟨h1, h2, h3⟩ | ⟨h1, h2, h3⟩
    · have p1 := (length_pos_iff_ne_empty rs.enterprise).mpr h1
      have q2 : ¬ 0 < rs.organization.length :=
        fun hp => (length_pos_iff_ne_empty rs.organization).mp hp h2
      have q3 : ¬ 0 < rs.repository.length :=
        fun hp => (length_pos_iff_ne_empty rs.repository).mp hp h3
      split_ifs
      omega
    · have q1 : ¬ 0 < rs.enterprise.length :=
        fun hp => (length_pos_iff_ne_empty rs.enterprise).mp hp h1
      have p2 := (length_pos_iff_ne_empty rs.organization).mpr h2
      have q3 : ¬ 0 < rs.repository.length :=
        fun hp => (length_pos_iff_ne_empty rs.repository).mp hp h3
      split_ifs
      omega
    · have q1 : ¬ 0 < rs.enterprise.length :=
        fun hp => (length_pos_iff_ne_empty rs.enterprise).mp hp h1
      have q2 : ¬ 0 < rs.organization.length :=
        fun hp => (length_pos_iff_ne_empty rs.organization).mp hp h2
      have p3 := (length_pos_iff_ne_empty rs.repository).mpr h3
      split_ifs
      omega
  unfold RunnerSpec.ValidateRepository
  rw [hcount]
  norm_num

/-- C8 (witness): the theorem applied to the organization-only spec. -/
theorem validateRepository_ok_of_exactly_one_scope_witness :
    specPlain.enterprise = "" ∧ specPlain.organization ≠ "" ∧ specPlain.repository = ""
      ∧ specPlain.ValidateRepository = none :=
  ⟨rfl, by decide, rfl,
    validateRepository_ok_of_exactly_one_scope specPlain
      (Or.inr (Or.inl ⟨rfl, by decide, rfl⟩))⟩

/-- C9: both operations are deterministic: on the same spec, two
evaluations of ValidateRepository agree, and on the same runner and the
same instant now, two evaluations of IsRegisterable agree — both are pure
functions of their inputs alone. -/
theorem core_operations_deterministic (rs : RunnerSpec) (r : Runner) (now : Time) :
    rs.ValidateRepository = rs.ValidateRepository
      ∧ r.IsRegisterable now = r.IsRegisterable now :=
  ⟨rfl, rfl⟩

/-- C10: ValidateRepository reads only the three scope fields: any two
specs that agree on enterprise, organization and repository validate to
the same result, however much they differ in labels, group, ephemeral or
the container and pod fields. -/
theorem validateRepository_depends_only_on_scope (rs1 rs2 : RunnerSpec)
    (he : rs1.enterprise = rs2.enterprise)
    (ho : rs1.organization = rs2.organization)
    (hr : rs1.repository = rs2.repository) :
    rs1.ValidateRepository = rs2.ValidateRepository := by
  unfold RunnerSpec.ValidateRepository RunnerSpec.foundCount
  rw [he, ho, hr]

/-- C10 (witness): the theorem applied to two organization-scoped specs
that differ in labels, group, ephemeral, image and workDir. -/
theorem validateRepository_depends_only_on_scope_witness :
    specPlain.enterprise = specDecorated.enterprise
      ∧ specPlain.organization = specDecorated.organization
      ∧ specPlain.repository = specDecorated.repository
      ∧ specPlain.labels ≠ specDecorated.labels
      ∧ specPlain.ephemeral ≠ specDecorated.ephemeral
      ∧ specPlain.ValidateRepository = specDecorated.ValidateRepository :=
  ⟨rfl, rfl, rfl, by decide, by decide,
    validateRepository_depends_only_on_scope specPlain specDecorated rfl rfl rfl⟩

end ARC
